import Mathlib

/-!
Shallow embedding of the admincumma status-update flow.

The repository is a Next.js admin application.  The parts the claims are
about, and the source they are embedded from, are:

  * the booking status-update route handler (POST, unnamed file part_000),
  * the facility status-update route handler (POST, unnamed file part_001,
    identical copy inside part_000),
  * the client booking status control, later revision with localStorage
    (StatusActions, second component in unnamed file part_002),
  * the client facility status control
    (src/components/facilities/StatusActions.tsx),
  * the cache-defeat middleware (src/middleware.ts),
  * the revalidation endpoint (src/app/api/revalidate-cache/route.ts).

Asynchrony is resolved by passing the outcome of each awaited race
explicitly (RaceOutcome for the server Promise.race, FetchOutcome for the
client fetch).  JSON bodies are records of Option-valued fields: a field
the handler does not put into the body is none.  JavaScript string
truthiness (null, undefined and the empty string are falsy) is jsFalsy.
Log statements, spinners rendered inside SVG markup, and the exact ISO
rendering of dates are elided; Date.now values are passed in as a Nat.
-/

namespace AdminCumma

/-- Truthiness test for a possibly absent JavaScript string: null or
undefined (none) and the empty string are falsy, every other string is
truthy. -/
def jsFalsy : Option String → Bool
  | none => true
  | some s => s = ""

/-- Shape of the value the service layer operations (updateBookingStatus in
bookingService, updateFacilityStatus in facilityService) resolve with, as
declared by the BookingUpdateResult and FacilityUpdateResult interfaces in
the route files. -/
structure UpdateResult where
  success : Bool
  message : Option String
  webhookSent : Option Bool
deriving DecidableEq

/-- Outcome of the route handler race
Promise.race([resultPromise, timeoutPromise]): either the service
operation settles first with its result, or the 25000 ms timer rejects
first. -/
inductive RaceOutcome where
  | settled (r : UpdateResult)
  | timedOut
deriving DecidableEq

/-- HTTP status plus JSON body of a status-update endpoint response.  A
field is none exactly when the handler leaves it out of the body it passes
to NextResponse.json. -/
structure ApiResponse where
  httpStatus : Nat
  success : Option Bool := none
  partialFlag : Option Bool := none
  message : Option String := none
  webhookSent : Option Bool := none
  error : Option String := none
  timestamp : Option Nat := none
deriving DecidableEq

namespace BookingRoute

/-- POST handler of the booking update-status route (unnamed file part_000).
Inputs are the two body fields the handler reads and the outcome of the
race against the 25 second timer.  The second component of the result
records whether the handler invoked the service operation
updateBookingStatus (it builds resultPromise only after validation
passes). -/
def POST (bookingId status : Option String) (race : RaceOutcome) :
    ApiResponse × Bool :=
  if jsFalsy bookingId || jsFalsy status then
    ({ httpStatus := 400, error := some "Missing required fields" }, false)
  else
    match race with
    | RaceOutcome.settled r =>
        if r.success then
          ({ httpStatus := 200, success := some true, message := r.message,
             webhookSent := r.webhookSent }, true)
        else
          ({ httpStatus := 404, error := r.message }, true)
    | RaceOutcome.timedOut =>
        ({ httpStatus := 200, success := some true, partialFlag := some true,
           message := some "Status updated but notification may have timed out",
           webhookSent := some false }, true)

end BookingRoute

namespace FacilityRoute

/-- POST handler of the facility update-status route (unnamed file
part_001).  Identical control flow to the booking route, plus a
timestamp field (Date.now, passed in as now) on the 200 bodies.  The
no-store response headers this handler also sets are not part of any
claim and are elided. -/
def POST (facilityId status : Option String) (race : RaceOutcome)
    (now : Nat) : ApiResponse × Bool :=
  if jsFalsy facilityId || jsFalsy status then
    ({ httpStatus := 400, error := some "Missing required fields" }, false)
  else
    match race with
    | RaceOutcome.settled r =>
        if r.success then
          ({ httpStatus := 200, success := some true, message := r.message,
             webhookSent := r.webhookSent, timestamp := some now }, true)
        else
          ({ httpStatus := 404, error := r.message }, true)
    | RaceOutcome.timedOut =>
        ({ httpStatus := 200, success := some true, partialFlag := some true,
           message := some "Status updated but notification may have timed out",
           webhookSent := some false, timestamp := some now }, true)

end FacilityRoute

/-- Response produced by the cache-defeat middleware: the three cache
headers it may set and, when it rewrites, the query of the rewritten
URL. -/
structure MwResponse where
  cacheControl : Option String := none
  pragmaHeader : Option String := none
  expiresHeader : Option String := none
  rewrittenQuery : Option (List (String × String)) := none
deriving DecidableEq

/-- url.searchParams.has. -/
def hasParam (q : List (String × String)) (k : String) : Bool :=
  q.any (fun p => p.fst = k)

/-- url.searchParams.set: replace any binding of k, else append. -/
def setParam (q : List (String × String)) (k v : String) :
    List (String × String) :=
  q.filter (fun p => p.fst ≠ k) ++ [(k, v)]

/-- middleware from src/middleware.ts.  The handler first builds the
pass-through response NextResponse.next() and sets the three cache headers
on it; on a GET request whose query lacks the _t marker it then returns
NextResponse.rewrite(url) instead, a freshly constructed response that
carries none of those headers (the header-bearing pass-through response is
discarded in that branch); otherwise it returns the header-bearing
pass-through response. -/
def middleware (method : String) (query : List (String × String))
    (now : Nat) : MwResponse :=
  if method = "GET" && !hasParam query "_t" then
    { rewrittenQuery := some (setParam query "_t" (toString now)) }
  else
    { cacheControl := some "no-store, max-age=0, must-revalidate",
      pragmaHeader := some "no-cache",
      expiresHeader := some "0" }

/-- Cache-invalidation effect triggered by the revalidation endpoint:
revalidatePath p or revalidateTag t. -/
inductive RevalidateAction where
  | path (p : String)
  | tag (t : String)
deriving DecidableEq

/-- HTTP status plus JSON body of a revalidation endpoint response. -/
structure RevalidateResponse where
  httpStatus : Nat
  revalidated : Bool
  message : Option String := none
  error : Option String := none
  timestamp : Option Nat := none
deriving DecidableEq

/-- Rendering of a revalidation target inside the endpoint response
message, matching the template literals of the route. -/
def describeAction : RevalidateAction → String
  | RevalidateAction.path p => "Path " ++ p
  | RevalidateAction.tag t => "Tag " ++ t

namespace RevalidateRoute

/-- GET handler of src/app/api/revalidate-cache/route.ts.  Inputs are the
three query parameters it reads, the environment variable
REVALIDATION_SECRET, and Date.now (now).  The ISO rendering of the wall
clock inside the message is abstracted to the decimal rendering of now.
The second component lists the cache invalidations performed. -/
def GET (pathParam secretParam tagParam envSecret : Option String)
    (now : Nat) : RevalidateResponse × List RevalidateAction :=
  let path : String :=
    match pathParam with
    | none => "/"
    | some p => if p = "" then "/" else p
  if jsFalsy envSecret = false ∧ secretParam ≠ envSecret then
    ({ httpStatus := 401, revalidated := false,
       error := some "Invalid secret token" }, [])
  else if jsFalsy tagParam = false then
    let t := tagParam.getD ""
    ({ httpStatus := 200, revalidated := true,
       message := some ("Tag " ++ t ++ " revalidated at " ++ toString now),
       timestamp := some now }, [RevalidateAction.tag t])
  else
    ({ httpStatus := 200, revalidated := true,
       message := some ("Path " ++ path ++ " revalidated at " ++ toString now),
       timestamp := some now }, [RevalidateAction.path path])

end RevalidateRoute

/-- Outcome observed by the client for its fetch to the update-status
route: res.ok; a non-ok response with its status code and the error field
of its parsed body (none covers both an absent field and a body that
failed to parse, in which case the code falls back to statusText); an
AbortError from the 30 second client timeout; a network-unreachable
failure (Failed to fetch or navigator.onLine false); any other thrown
error. -/
inductive FetchOutcome where
  | ok
  | httpError (status : Nat) (errorField : Option String)
  | abortError
  | networkError
  | otherError
deriving DecidableEq

/-- errorMessage computed in the non-ok branch of both client handlers:
errorData.error, falling back to a generic message when absent or
empty. -/
def errMsg : Option String → String
  | none => "Unknown error"
  | some m => if m = "" then "Unknown error" else m

/-- Observable state of the booking StatusActions component (later
revision, second component of unnamed file part_002): the React state
variables, the localStorage entry keyed booking_status_ followed by the
booking id, the alert messages shown so far, whether an authoritative
refresh (router.refresh, possibly inside startTransition or setTimeout)
has been scheduled, and how many fetches have been issued. -/
structure BookingState where
  isLoading : Bool
  currentStatus : String
  showSpinner : Bool
  stored : Option String
  alerts : List String
  refreshScheduled : Bool
  requestsIssued : Nat
deriving DecidableEq

namespace BookingStatusActions

/-- Alert text of the 504 branch of the booking control. -/
def alert504 : String :=
  "The server took too long to respond, but the status was likely updated successfully. The page will refresh in 3 seconds."

/-- Alert text of the AbortError branch of the booking control. -/
def alertAbort : String :=
  "The request timed out, but the status was likely updated successfully. You can continue using the application."

/-- Alert text of the network-error branch of the booking control. -/
def alertNetwork : String :=
  "Network error. The status update may have succeeded. The page will refresh automatically."

/-- Alert text of the unexpected-error branch of the booking control. -/
def alertUnexpected : String :=
  "An unexpected error occurred while updating the booking status."

/-- The updateBookingStatus click handler of the booking StatusActions
component (later revision), as a transition on BookingState.  The handler
returns immediately when isLoading is set; otherwise it optimistically
sets currentStatus and the localStorage entry to newStatus, issues the
fetch, handles its outcome, and finally clears isLoading. -/
def updateBookingStatus (initialStatus newStatus : String)
    (outcome : FetchOutcome) (s : BookingState) : BookingState :=
  if s.isLoading then s
  else
    let s1 : BookingState :=
      { s with isLoading := true, currentStatus := newStatus,
               showSpinner := true, stored := some newStatus,
               requestsIssued := s.requestsIssued + 1 }
    let s2 : BookingState :=
      match outcome with
      | FetchOutcome.ok =>
          { s1 with showSpinner := false, refreshScheduled := true }
      | FetchOutcome.httpError st errF =>
          if st = 504 then
            { s1 with alerts := s1.alerts ++ [alert504],
                      refreshScheduled := true }
          else
            { s1 with currentStatus := initialStatus, stored := none,
                      showSpinner := false,
                      alerts := s1.alerts ++
                        ["Failed to update status: " ++ errMsg errF] }
      | FetchOutcome.abortError =>
          { s1 with alerts := s1.alerts ++ [alertAbort],
                    refreshScheduled := true, showSpinner := false }
      | FetchOutcome.networkError =>
          { s1 with alerts := s1.alerts ++ [alertNetwork],
                    refreshScheduled := true, showSpinner := false }
      | FetchOutcome.otherError =>
          { s1 with currentStatus := initialStatus, stored := none,
                    alerts := s1.alerts ++ [alertUnexpected],
                    showSpinner := false }
    { s2 with isLoading := false }

/-- The useEffect of the booking StatusActions component (later revision):
on mount and whenever bookingId or the initialStatus prop changes (in
particular after an authoritative refresh delivers a new server status as
the prop), read the localStorage entry and, when it is truthy and differs
from the prop, overwrite currentStatus with it; otherwise leave
currentStatus unchanged.  Arguments: the stored entry, the refreshed
initialStatus prop, the current value of currentStatus. -/
def applyStoredStatus (stored : Option String)
    (initialStatus currentStatus : String) : String :=
  match stored with
  | none => currentStatus
  | some st => if st ≠ "" ∧ st ≠ initialStatus then st else currentStatus

end BookingStatusActions

/-- Observable state of the facility StatusActions component
(src/components/facilities/StatusActions.tsx).  This component keeps no
localStorage record; errorState is its error React state variable. -/
structure FacilityState where
  isLoading : Bool
  errorState : Option String
  currentStatus : String
  showSpinner : Bool
  alerts : List String
  refreshScheduled : Bool
  requestsIssued : Nat
deriving DecidableEq

namespace FacilityStatusActions

/-- Alert text of the 504 branch of the facility control. -/
def alert504 : String :=
  "The server took too long to respond. The update may have succeeded. The page will refresh in 3 seconds to check."

/-- Alert text of the AbortError branch of the facility control. -/
def alertAbort : String :=
  "The request timed out. The operation may still have been successful. The page will refresh in 5 seconds to check the status."

/-- Alert text of the network-error branch of the facility control. -/
def alertNetwork : String :=
  "Network error. The operation may still have been successful. Please wait while we refresh the page."

/-- Alert text of the unexpected-error branch of the facility control. -/
def alertUnexpected : String :=
  "An error occurred while updating the facility status."

/-- The handleStatusUpdate click handler of the facility StatusActions
component, as a transition on FacilityState.  Unlike the booking control,
this handler has no isLoading guard at its head: it unconditionally sets
isLoading, clears errorState, optimistically sets currentStatus, issues
the fetch, handles its outcome, and finally clears isLoading.  A
scheduled refresh covers both the onStatusChange callback and
router.refresh. -/
def handleStatusUpdate (initialStatus newStatus : String)
    (outcome : FetchOutcome) (s : FacilityState) : FacilityState :=
  let s1 : FacilityState :=
    { s with isLoading := true, errorState := none,
             currentStatus := newStatus, showSpinner := true,
             requestsIssued := s.requestsIssued + 1 }
  let s2 : FacilityState :=
    match outcome with
    | FetchOutcome.ok =>
        { s1 with showSpinner := false, refreshScheduled := true }
    | FetchOutcome.httpError st errF =>
        if st = 504 then
          { s1 with alerts := s1.alerts ++ [alert504],
                    refreshScheduled := true }
        else
          { s1 with currentStatus := initialStatus, showSpinner := false,
                    alerts := s1.alerts ++
                      ["Failed to update status: " ++ errMsg errF] }
    | FetchOutcome.abortError =>
        { s1 with alerts := s1.alerts ++ [alertAbort],
                  refreshScheduled := true, showSpinner := false }
    | FetchOutcome.networkError =>
        { s1 with alerts := s1.alerts ++ [alertNetwork],
                  refreshScheduled := true, showSpinner := false }
    | FetchOutcome.otherError =>
        { s1 with currentStatus := initialStatus,
                  alerts := s1.alerts ++ [alertUnexpected],
                  showSpinner := false }
  { s2 with isLoading := false }

/-- The disabled attribute of the Approve and Reject buttons rendered by
the facility control: disabled exactly while isLoading. -/
def buttonsDisabled (s : FacilityState) : Bool :=
  s.isLoading

end FacilityStatusActions

/-! Theorems settling the claims. -/

/-- C1: for every status-update request (booking or facility) whose body
passes validation and whose underlying service operation has not settled
when the server-side 25-second timer fires, the endpoint responds with
success equal true, the partial flag set, webhookSent equal false, HTTP
status 200 and no error field: the timeout is reported optimistically,
not as a failure. -/
theorem c1_server_timeout_reported_optimistically
    (bid fid st : Option String) (now : Nat)
    (hb : jsFalsy bid = false) (hf : jsFalsy fid = false)
    (hs : jsFalsy st = false) :
    (BookingRoute.POST bid st RaceOutcome.timedOut).fst =
      { httpStatus := 200, success := some true, partialFlag := some true,
        message := some "Status updated but notification may have timed out",
        webhookSent := some false } ∧
    (FacilityRoute.POST fid st RaceOutcome.timedOut now).fst =
      { httpStatus := 200, success := some true, partialFlag := some true,
        message := some "Status updated but notification may have timed out",
        webhookSent := some false, timestamp := some now } := by
  constructor
  · simp [BookingRoute.POST, hb, hs]
  · simp [FacilityRoute.POST, hf, hs]

/-- Witness for C1 at a concrete request: booking id b1, facility id f1,
target status approved, timer fires first. -/
theorem c1_server_timeout_reported_optimistically_witness :
    (jsFalsy (some "b1") = false ∧ jsFalsy (some "f1") = false ∧
      jsFalsy (some "approved") = false) ∧
    ((BookingRoute.POST (some "b1") (some "approved")
        RaceOutcome.timedOut).fst =
      { httpStatus := 200, success := some true, partialFlag := some true,
        message := some "Status updated but notification may have timed out",
        webhookSent := some false } ∧
     (FacilityRoute.POST (some "f1") (some "approved")
        RaceOutcome.timedOut 5).fst =
      { httpStatus := 200, success := some true, partialFlag := some true,
        message := some "Status updated but notification may have timed out",
        webhookSent := some false, timestamp := some 5 }) :=
  ⟨by decide,
   c1_server_timeout_reported_optimistically (some "b1") (some "f1")
     (some "approved") 5 (by decide) (by decide) (by decide)⟩

/-- C2: for every status-update request (booking or facility) whose body
is missing the entity id or the target status (absent or empty, the
falsiness the handlers test), the endpoint returns HTTP 400 with the
missing-fields error and the entity-specific service function is never
called: validation precedes mutation. -/
theorem c2_validation_precedes_mutation
    (eid st : Option String) (race : RaceOutcome) (now : Nat)
    (h : jsFalsy eid = true ∨ jsFalsy st = true) :
    BookingRoute.POST eid st race =
      ({ httpStatus := 400, error := some "Missing required fields" },
        false) ∧
    FacilityRoute.POST eid st race now =
      ({ httpStatus := 400, error := some "Missing required fields" },
        false) := by
  rcases h with h | h <;>
    exact ⟨by simp [BookingRoute.POST, h], by simp [FacilityRoute.POST, h]⟩

/-- Witness for C2 at a concrete request: id present, status absent. -/
theorem c2_validation_precedes_mutation_witness :
    jsFalsy (none : Option String) = true ∧
    (BookingRoute.POST (some "b1") none RaceOutcome.timedOut =
      ({ httpStatus := 400, error := some "Missing required fields" },
        false) ∧
     FacilityRoute.POST (some "b1") none RaceOutcome.timedOut 5 =
      ({ httpStatus := 400, error := some "Missing required fields" },
        false)) :=
  ⟨by decide,
   c2_validation_precedes_mutation (some "b1") none RaceOutcome.timedOut 5
     (Or.inr (by decide))⟩

/-- C7 counterexample: at a concrete valid request whose service operation
settles in time and reports failure (booking not found), the response body
carries no success field at all, in particular not success equal false as
the claim states; the handler responds 404 with only the error field. -/
theorem c7_counterexample_no_success_field :
    (BookingRoute.POST (some "b1") (some "approved")
        (RaceOutcome.settled
          { success := false, message := some "Booking not found",
            webhookSent := none })).fst.success ≠ some false ∧
    (BookingRoute.POST (some "b1") (some "approved")
        (RaceOutcome.settled
          { success := false, message := some "Booking not found",
            webhookSent := none })).fst =
      { httpStatus := 404, error := some "Booking not found" } := by
  decide

/-- C7 amended: for every valid status-update request (booking or
facility) whose service operation settles within the 25-second budget and
reports failure, the endpoint responds with HTTP 404 and a body holding
only the service message as its error field: the body carries no success
field (in particular it does not claim success) and no partial flag. -/
theorem c7_settled_failure_is_404_error_body
    (eid st : Option String) (r : UpdateResult) (now : Nat)
    (hid : jsFalsy eid = false) (hst : jsFalsy st = false)
    (hr : r.success = false) :
    (BookingRoute.POST eid st (RaceOutcome.settled r)).fst =
      { httpStatus := 404, error := r.message } ∧
    (FacilityRoute.POST eid st (RaceOutcome.settled r) now).fst =
      { httpStatus := 404, error := r.message } := by
  constructor
  · simp [BookingRoute.POST, hid, hst, hr]
  · simp [FacilityRoute.POST, hid, hst, hr]

/-- Witness for the amended C7 at a concrete request: the service settles
with a not-found failure. -/
theorem c7_settled_failure_is_404_error_body_witness :
    (jsFalsy (some "b1") = false ∧ jsFalsy (some "approved") = false) ∧
    ((BookingRoute.POST (some "b1") (some "approved")
        (RaceOutcome.settled
          { success := false, message := some "Facility not found",
            webhookSent := none })).fst =
      { httpStatus := 404, error := some "Facility not found" } ∧
     (FacilityRoute.POST (some "b1") (some "approved")
        (RaceOutcome.settled
          { success := false, message := some "Facility not found",
            webhookSent := none }) 5).fst =
      { httpStatus := 404, error := some "Facility not found" }) :=
  ⟨by decide,
   c7_settled_failure_is_404_error_body (some "b1") (some "approved")
     { success := false, message := some "Facility not found",
       webhookSent := none } 5 (by decide) (by decide) (by decide)⟩

/-- C8: evaluation at the failing input.  A GET request without the _t
marker is rewritten to carry the timestamp-derived marker, but the
returned rewrite response carries none of the no-store cache headers
(they were set only on the discarded pass-through response), contradicting
the claim that every response of the middleware carries them; a non-GET
request and an already-marked GET request do pass through with the
headers. -/
theorem c8_rewritten_response_lacks_no_store_headers :
    (middleware "GET" [] 123).rewrittenQuery = some [("_t", "123")] ∧
    (middleware "GET" [] 123).cacheControl = none ∧
    (middleware "GET" [] 123).pragmaHeader = none ∧
    (middleware "GET" [] 123).expiresHeader = none ∧
    (middleware "POST" [] 123).cacheControl =
      some "no-store, max-age=0, must-revalidate" ∧
    (middleware "GET" [("_t", "7")] 123).cacheControl =
      some "no-store, max-age=0, must-revalidate" := by
  decide

/-- C9: the revalidation endpoint, secret gate.  First, when a secret is
configured in the environment (truthy) and the request secret differs,
the endpoint returns 401 with revalidated false and performs no
invalidation at all.  Second, when no secret is configured or the secrets
match, revalidation proceeds: exactly one invalidation is performed and
the 200 response reports revalidated true, a timestamp, and a message
naming the invalidated target. -/
theorem c9_revalidation_secret_gate
    (pathParam secretParam tagParam envSecret : Option String) (now : Nat) :
    (∀ e, envSecret = some e → e ≠ "" → secretParam ≠ some e →
      RevalidateRoute.GET pathParam secretParam tagParam envSecret now =
        ({ httpStatus := 401, revalidated := false,
           error := some "Invalid secret token" }, [])) ∧
    ((jsFalsy envSecret = true ∨ secretParam = envSecret) →
      ((RevalidateRoute.GET pathParam secretParam tagParam envSecret
          now).fst.revalidated = true ∧
       (RevalidateRoute.GET pathParam secretParam tagParam envSecret
          now).fst.httpStatus = 200 ∧
       (RevalidateRoute.GET pathParam secretParam tagParam envSecret
          now).fst.timestamp = some now ∧
       ∃ a, (RevalidateRoute.GET pathParam secretParam tagParam envSecret
              now).snd = [a] ∧
         (RevalidateRoute.GET pathParam secretParam tagParam envSecret
            now).fst.message =
           some (describeAction a ++ " revalidated at " ++ toString now))) := by
  constructor
  · intro e he hne hdiff
    subst he
    have hgate : jsFalsy (some e) = false ∧ secretParam ≠ some e :=
      ⟨by simp [jsFalsy, hne], hdiff⟩
    simp [RevalidateRoute.GET, hgate]
  · intro hauth
    have hgate : ¬(jsFalsy envSecret = false ∧ secretParam ≠ envSecret) := by
      rcases hauth with h | h
      · intro hc
        rw [h] at hc
        exact absurd hc.1 (by simp)
      · intro hc
        exact hc.2 h
    by_cases htag : jsFalsy tagParam = false
    · refine ⟨?_, ?_, ?_, RevalidateAction.tag (tagParam.getD ""), ?_, ?_⟩ <;>
        simp [RevalidateRoute.GET, hgate, htag, describeAction]
    · refine ⟨?_, ?_, ?_,
        RevalidateAction.path
          (match pathParam with
           | none => "/"
           | some p => if p = "" then "/" else p), ?_, ?_⟩ <;>
        simp [RevalidateRoute.GET, hgate, htag, describeAction]

/-- Witness for C9 at concrete requests: one with a configured secret and
a mismatching request secret, one with no configured secret and a tag. -/
theorem c9_revalidation_secret_gate_witness :
    (RevalidateRoute.GET (some "/p") (some "wrong") none (some "s3cret") 5 =
      ({ httpStatus := 401, revalidated := false,
         error := some "Invalid secret token" }, [])) ∧
    ((RevalidateRoute.GET none none (some "bookings") none 5).fst.revalidated
        = true ∧
     (RevalidateRoute.GET none none (some "bookings") none 5).fst.httpStatus
        = 200 ∧
     (RevalidateRoute.GET none none (some "bookings") none 5).fst.timestamp
        = some 5 ∧
     ∃ a, (RevalidateRoute.GET none none (some "bookings") none 5).snd = [a] ∧
       (RevalidateRoute.GET none none (some "bookings") none 5).fst.message =
         some (describeAction a ++ " revalidated at " ++ toString 5)) :=
  ⟨(c9_revalidation_secret_gate (some "/p") (some "wrong") none
      (some "s3cret") 5).1 "s3cret" rfl (by decide) (by decide),
   (c9_revalidation_secret_gate none none (some "bookings") none 5).2
     (Or.inl (by decide))⟩

/-- C10: for every authorized request carrying a truthy tag parameter
(present and non-empty, the truthiness the route tests), only tag
revalidation is performed and any path parameter is ignored; and for
every authorized request without a truthy tag and without a path
parameter, the path defaults to the root and path revalidation of the
root is performed. -/
theorem c10_tag_overrides_path_and_root_default
    (pathParam secretParam tagParam envSecret : Option String) (now : Nat)
    (hauth : jsFalsy envSecret = true ∨ secretParam = envSecret) :
    (∀ t, tagParam = some t → t ≠ "" →
      (RevalidateRoute.GET pathParam secretParam tagParam envSecret
          now).snd = [RevalidateAction.tag t]) ∧
    (pathParam = none → jsFalsy tagParam = true →
      (RevalidateRoute.GET pathParam secretParam tagParam envSecret
          now).snd = [RevalidateAction.path "/"]) := by
  have hgate : ¬(jsFalsy envSecret = false ∧ secretParam ≠ envSecret) := by
    rcases hauth with h | h
    · intro hc
      rw [h] at hc
      exact absurd hc.1 (by simp)
    · intro hc
      exact hc.2 h
  constructor
  · intro t ht hne
    subst ht
    have htag : jsFalsy (some t) = false := by simp [jsFalsy, hne]
    simp [RevalidateRoute.GET, hgate, htag]
  · intro hpath htag
    subst hpath
    simp [RevalidateRoute.GET, hgate, htag]

/-- Witness for C10 at concrete requests: a request carrying both a tag
and a path performs only tag revalidation; a request with neither
revalidates the root path. -/
theorem c10_tag_overrides_path_and_root_default_witness :
    ((RevalidateRoute.GET (some "/x") none (some "bookings") none 5).snd =
      [RevalidateAction.tag "bookings"] ∧
     (RevalidateRoute.GET none none none none 5).snd =
      [RevalidateAction.path "/"]) :=
  ⟨(c10_tag_overrides_path_and_root_default (some "/x") none
      (some "bookings") none 5 (Or.inl (by decide))).1 "bookings" rfl
      (by decide),
   (c10_tag_overrides_path_and_root_default none none none none 5
      (Or.inl (by decide))).2 rfl (by decide)⟩

/-- A booking control state freshly mounted on a pending booking: nothing
stored, no request issued yet. -/
def freshPendingBooking : BookingState :=
  { isLoading := false, currentStatus := "pending", showSpinner := false,
    stored := none, alerts := [], refreshScheduled := false,
    requestsIssued := 0 }

/-- A facility control state freshly mounted on a pending facility. -/
def freshPendingFacility : FacilityState :=
  { isLoading := false, errorState := none, currentStatus := "pending",
    showSpinner := false, alerts := [], refreshScheduled := false,
    requestsIssued := 0 }

/-- A booking control state with a request already in flight. -/
def busyBooking : BookingState :=
  { isLoading := true, currentStatus := "approved", showSpinner := true,
    stored := some "approved", alerts := [], refreshScheduled := false,
    requestsIssued := 1 }

/-- C3 counterexample: start from a freshly mounted pending booking, click
Approve, let the request succeed; the localStorage record remains
approved.  When the authoritative refresh then delivers server status
pending as the new initialStatus prop, the useEffect sets currentStatus
back to the stored approved value: the rendered status is not the server
status, so the UI does not converge to pending and the optimistic record
keeps overriding the refresh. -/
theorem c3_counterexample_stored_overrides_refresh :
    BookingStatusActions.applyStoredStatus
        (BookingStatusActions.updateBookingStatus "pending" "approved"
          FetchOutcome.ok freshPendingBooking).stored
        "pending"
        (BookingStatusActions.updateBookingStatus "pending" "approved"
          FetchOutcome.ok freshPendingBooking).currentStatus
      ≠ "pending" := by
  decide

/-- C3 amended: the local optimistic record outlives reconciliation.  A
successful update leaves the localStorage record set to the attempted
status (the success path never clears it), and on any later refresh
delivering a server status different from the truthy stored value the
useEffect renders the stored value, not the server status; in particular
a refresh revealing pending leaves the UI showing the stored optimistic
status.  The record is cleared only by an explicit non-504 error response
or an unexpected exception. -/
theorem c3_stored_record_outlives_reconciliation
    (r serverStatus current : String) (hr : r ≠ "")
    (hne : r ≠ serverStatus)
    (init newStatus : String) (s : BookingState)
    (hload : s.isLoading = false) :
    BookingStatusActions.applyStoredStatus (some r) serverStatus current
      = r ∧
    (BookingStatusActions.updateBookingStatus init newStatus FetchOutcome.ok
        s).stored = some newStatus := by
  constructor
  · simp [BookingStatusActions.applyStoredStatus, hr, hne]
  · simp [BookingStatusActions.updateBookingStatus, hload]

/-- Witness for the amended C3: stored approved against a refresh
revealing pending, after a successful approve click from a fresh pending
state. -/
theorem c3_stored_record_outlives_reconciliation_witness :
    (("approved" : String) ≠ "" ∧ ("approved" : String) ≠ "pending" ∧
      freshPendingBooking.isLoading = false) ∧
    (BookingStatusActions.applyStoredStatus (some "approved") "pending"
        "approved" = "approved" ∧
     (BookingStatusActions.updateBookingStatus "pending" "approved"
        FetchOutcome.ok freshPendingBooking).stored = some "approved") :=
  ⟨by decide,
   c3_stored_record_outlives_reconciliation "approved" "pending" "approved"
     (by decide) (by decide) "pending" "approved" freshPendingBooking
     (by decide)⟩

/-- C4: for every update attempt that ends ambiguously on the client, the
abort of the 30-second timeout, a network-unreachable error, or an
explicit 504 response, neither control rolls back: currentStatus keeps
the optimistic target, exactly one alert informs the user, and an
authoritative refresh is scheduled, for the booking control and the
facility control alike. -/
theorem c4_ambiguous_outcomes_keep_optimistic_state
    (init newStatus : String) (outcome : FetchOutcome)
    (s : BookingState) (f : FacilityState)
    (hs : s.isLoading = false)
    (hamb : outcome = FetchOutcome.abortError ∨
            outcome = FetchOutcome.networkError ∨
            ∃ e, outcome = FetchOutcome.httpError 504 e) :
    ((BookingStatusActions.updateBookingStatus init newStatus outcome
        s).currentStatus = newStatus ∧
     (BookingStatusActions.updateBookingStatus init newStatus outcome
        s).alerts.length = s.alerts.length + 1 ∧
     (BookingStatusActions.updateBookingStatus init newStatus outcome
        s).refreshScheduled = true) ∧
    ((FacilityStatusActions.handleStatusUpdate init newStatus outcome
        f).currentStatus = newStatus ∧
     (FacilityStatusActions.handleStatusUpdate init newStatus outcome
        f).alerts.length = f.alerts.length + 1 ∧
     (FacilityStatusActions.handleStatusUpdate init newStatus outcome
        f).refreshScheduled = true) := by
  rcases hamb with h | h | ⟨e, h⟩ <;> subst h <;>
    exact ⟨by simp [BookingStatusActions.updateBookingStatus, hs],
           by simp [FacilityStatusActions.handleStatusUpdate]⟩

/-- Witness for C4: a concrete client-timeout abort on fresh pending
booking and facility controls. -/
theorem c4_ambiguous_outcomes_keep_optimistic_state_witness :
    freshPendingBooking.isLoading = false ∧
    (((BookingStatusActions.updateBookingStatus "pending" "rejected"
        FetchOutcome.abortError freshPendingBooking).currentStatus =
          "rejected" ∧
      (BookingStatusActions.updateBookingStatus "pending" "rejected"
        FetchOutcome.abortError freshPendingBooking).alerts.length =
          freshPendingBooking.alerts.length + 1 ∧
      (BookingStatusActions.updateBookingStatus "pending" "rejected"
        FetchOutcome.abortError freshPendingBooking).refreshScheduled =
          true) ∧
     ((FacilityStatusActions.handleStatusUpdate "pending" "rejected"
        FetchOutcome.abortError freshPendingFacility).currentStatus =
          "rejected" ∧
      (FacilityStatusActions.handleStatusUpdate "pending" "rejected"
        FetchOutcome.abortError freshPendingFacility).alerts.length =
          freshPendingFacility.alerts.length + 1 ∧
      (FacilityStatusActions.handleStatusUpdate "pending" "rejected"
        FetchOutcome.abortError freshPendingFacility).refreshScheduled =
          true)) :=
  ⟨by decide,
   c4_ambiguous_outcomes_keep_optimistic_state "pending" "rejected"
     FetchOutcome.abortError freshPendingBooking freshPendingFacility
     (by decide) (Or.inl rfl)⟩

/-- C5: for every update attempt answered by an explicit non-ambiguous
error, a non-ok response with a status other than 504, both controls roll
currentStatus back to the pre-click value, the booking control clears the
localStorage optimistic record (the facility control holds no such
persistence), and both surface the error message in an alert. -/
theorem c5_explicit_error_rolls_back
    (init newStatus : String) (st : Nat) (errF : Option String)
    (s : BookingState) (f : FacilityState)
    (hs : s.isLoading = false) (h504 : st ≠ 504)
    (hsc : s.currentStatus = init) (hfc : f.currentStatus = init) :
    ((BookingStatusActions.updateBookingStatus init newStatus
        (FetchOutcome.httpError st errF) s).currentStatus =
          s.currentStatus ∧
     (BookingStatusActions.updateBookingStatus init newStatus
        (FetchOutcome.httpError st errF) s).stored = none ∧
     (BookingStatusActions.updateBookingStatus init newStatus
        (FetchOutcome.httpError st errF) s).alerts =
       s.alerts ++ ["Failed to update status: " ++ errMsg errF]) ∧
    ((FacilityStatusActions.handleStatusUpdate init newStatus
        (FetchOutcome.httpError st errF) f).currentStatus =
          f.currentStatus ∧
     (FacilityStatusActions.handleStatusUpdate init newStatus
        (FetchOutcome.httpError st errF) f).alerts =
       f.alerts ++ ["Failed to update status: " ++ errMsg errF]) := by
  constructor
  · simp [BookingStatusActions.updateBookingStatus, hs, h504, hsc]
  · simp [FacilityStatusActions.handleStatusUpdate, h504, hfc]

/-- Witness for C5: a concrete 404 not-found response on fresh pending
controls rolls both back to pending and shows the error. -/
theorem c5_explicit_error_rolls_back_witness :
    (freshPendingBooking.isLoading = false ∧ (404 : Nat) ≠ 504 ∧
      freshPendingBooking.currentStatus = "pending" ∧
      freshPendingFacility.currentStatus = "pending") ∧
    (((BookingStatusActions.updateBookingStatus "pending" "rejected"
        (FetchOutcome.httpError 404 (some "Not found"))
          freshPendingBooking).currentStatus =
            freshPendingBooking.currentStatus ∧
      (BookingStatusActions.updateBookingStatus "pending" "rejected"
        (FetchOutcome.httpError 404 (some "Not found"))
          freshPendingBooking).stored = none ∧
      (BookingStatusActions.updateBookingStatus "pending" "rejected"
        (FetchOutcome.httpError 404 (some "Not found"))
          freshPendingBooking).alerts =
        freshPendingBooking.alerts ++
          ["Failed to update status: " ++ errMsg (some "Not found")]) ∧
     ((FacilityStatusActions.handleStatusUpdate "pending" "rejected"
        (FetchOutcome.httpError 404 (some "Not found"))
          freshPendingFacility).currentStatus =
            freshPendingFacility.currentStatus ∧
      (FacilityStatusActions.handleStatusUpdate "pending" "rejected"
        (FetchOutcome.httpError 404 (some "Not found"))
          freshPendingFacility).alerts =
        freshPendingFacility.alerts ++
          ["Failed to update status: " ++ errMsg (some "Not found")])) :=
  ⟨by decide,
   c5_explicit_error_rolls_back "pending" "rejected" 404 (some "Not found")
     freshPendingBooking freshPendingFacility (by decide) (by decide)
     (by decide) (by decide)⟩

/-- A facility control state with a request already in flight. -/
def busyFacility : FacilityState :=
  { isLoading := true, errorState := none, currentStatus := "pending",
    showSpinner := true, alerts := [], refreshScheduled := false,
    requestsIssued := 1 }

/-- C6 counterexample: invoking the facility handleStatusUpdate handler
while a request is already in flight (isLoading true) is not a no-op: it
issues a second fetch and changes state (the optimistic currentStatus
update runs), because the facility handler, unlike the booking one, has
no isLoading guard at its head. -/
theorem c6_counterexample_facility_handler_not_single_flight :
    (FacilityStatusActions.handleStatusUpdate "pending" "active"
        FetchOutcome.ok busyFacility).requestsIssued ≠
      busyFacility.requestsIssued ∧
    (FacilityStatusActions.handleStatusUpdate "pending" "active"
        FetchOutcome.ok busyFacility).currentStatus ≠
      busyFacility.currentStatus := by
  decide

/-- C6 amended: the booking control enforces single-flight in the handler
itself, invoking updateBookingStatus while isLoading is a no-op that
issues no request and changes no state; the facility control enforces it
only through the rendered buttons, which are disabled exactly while
isLoading, while its handler carries no such guard. -/
theorem c6_single_flight_booking_handler_facility_buttons
    (init newStatus : String) (outcome : FetchOutcome)
    (s : BookingState) (f : FacilityState)
    (hs : s.isLoading = true) (hf : f.isLoading = true) :
    BookingStatusActions.updateBookingStatus init newStatus outcome s = s ∧
    FacilityStatusActions.buttonsDisabled f = true := by
  exact ⟨by simp [BookingStatusActions.updateBookingStatus, hs],
         by simp [FacilityStatusActions.buttonsDisabled, hf]⟩

/-- Witness for the amended C6: a busy booking control ignores a second
Approve click, and the busy facility control renders disabled buttons. -/
theorem c6_single_flight_booking_handler_facility_buttons_witness :
    (busyBooking.isLoading = true ∧ busyFacility.isLoading = true) ∧
    (BookingStatusActions.updateBookingStatus "pending" "approved"
        FetchOutcome.ok busyBooking = busyBooking ∧
     FacilityStatusActions.buttonsDisabled busyFacility = true) :=
  ⟨by decide,
   c6_single_flight_booking_handler_facility_buttons "pending" "approved"
     FetchOutcome.ok busyBooking busyFacility (by decide) (by decide)⟩

end AdminCumma
